import Mathlib

/-!
# RangeServerClient (src/cc/Hypertable/Lib/RangeServerClient.h)

A verification development over the client proxy interface to the RangeServer.
The header holds the whole class declaration: the three data members, the four
inline timeout accessors and the declarations of every request operation.

* machine integers are natural numbers (or integers) with the wrap-around at
  `2^32` written out;
* the client object is a record of its three data members;
* the declared interface is a table of member-function declarations, one row
  per declaration of the header, in the order of the header.
-/

namespace Hypertable

/-! ## Machine integers -/

/-- Number of values of a `uint32_t`. -/
def UINT32_SIZE : Nat := 2 ^ 32

/-- Conversion of a value to `uint32_t`: reduction modulo `2^32`. -/
def to_uint32 (n : Nat) : Nat := n % UINT32_SIZE

/-- Conversion of a `uint32_t` to `int32_t`, as `return m_timeout_ms;` does in a
function whose return type is `int32_t`: the value is kept when it fits, and
is reduced modulo `2^32` into the signed range otherwise. -/
def to_int32 (n : Nat) : Int :=
  if n % UINT32_SIZE < 2 ^ 31 then ((n % UINT32_SIZE : Nat) : Int)
  else ((n % UINT32_SIZE : Nat) : Int) - ((UINT32_SIZE : Nat) : Int)

/-! ## The client object -/

/-- The data members of `class RangeServerClient` (the private section of the
header): `Comm *m_comm; uint32_t m_default_timeout_ms; uint32_t m_timeout_ms;`.
The pointer is kept as an address. -/
structure RangeServerClient where
  m_comm : Nat
  m_default_timeout_ms : Nat
  m_timeout_ms : Nat
  deriving DecidableEq, Repr

namespace RangeServerClient

/-- Inline member
`void set_default_timeout(uint32_t timeout_ms) { m_default_timeout_ms = timeout_ms; }`;
the argument arrives as a `uint32_t`. -/
def set_default_timeout (c : RangeServerClient) (timeout_ms : Nat) : RangeServerClient :=
  { c with m_default_timeout_ms := to_uint32 timeout_ms }

/-- Inline member `uint32_t default_timeout() const { return m_default_timeout_ms; }`. -/
def default_timeout (c : RangeServerClient) : Nat := c.m_default_timeout_ms

/-- Inline member `void set_timeout(uint32_t timeout_ms) { m_timeout_ms = timeout_ms; }`;
the argument arrives as a `uint32_t`. -/
def set_timeout (c : RangeServerClient) (timeout_ms : Nat) : RangeServerClient :=
  { c with m_timeout_ms := to_uint32 timeout_ms }

/-- Inline member `int32_t timeout() const { return m_timeout_ms; }`: the unsigned member is
returned through a signed 32-bit return type. -/
def timeout (c : RangeServerClient) : Int := to_int32 c.m_timeout_ms

end RangeServerClient


/-! ## The declared interface -/

/-- Parameter and return types that occur in the member-function declarations
of the class, spelled as in the header (`_cref` for `const T &`, `_ref` for
`T &`, `_ptr` for `T *`, `char_cptr` for `const char *`). -/
inductive CType where
  | void_
  | uint32_t
  | int32_t
  | uint16_t
  | int_
  | bool_
  | char_cptr
  | CommAddress_cref
  | TableIdentifier_cref
  | RangeSpec_cref
  | RangeState_cref
  | ScanSpec_cref
  | StaticBuffer_ref
  | ScanBlock_ref
  | String_ref
  | RangeServerStat_ref
  | DispatchHandler_ptr
  | CommBufPtr_ref
  deriving DecidableEq, Repr

/-- One parameter of a declaration: its type and its name. -/
structure Param where
  ty : CType
  name : String
  deriving DecidableEq, Repr

/-- One member-function declaration: return type, name, parameters in order. -/
structure MemberFunction where
  ret : CType
  name : String
  params : List Param
  deriving DecidableEq, Repr

/-- Parameter `const CommAddress &addr`. -/
def p_addr : Param := ⟨.CommAddress_cref, "addr"⟩
/-- Parameter `const TableIdentifier &table`. -/
def p_table : Param := ⟨.TableIdentifier_cref, "table"⟩
/-- Parameter `const RangeSpec &range`. -/
def p_range : Param := ⟨.RangeSpec_cref, "range"⟩
/-- Parameter `DispatchHandler *handler`. -/
def p_handler : Param := ⟨.DispatchHandler_ptr, "handler"⟩
/-- Parameter `int scanner_id`. -/
def p_scanner_id : Param := ⟨.int_, "scanner_id"⟩
/-- Parameter `ScanBlock &scan_block`. -/
def p_scan_block : Param := ⟨.ScanBlock_ref, "scan_block"⟩
/-- Parameter `StaticBuffer &buffer`. -/
def p_buffer : Param := ⟨.StaticBuffer_ref, "buffer"⟩

/-- The public member functions of `RangeServerClient`, one entry per
declaration, in the order of the header (constructor and destructor apart). -/
def public_member_functions : List MemberFunction :=
  [ ⟨.void_, "set_default_timeout", [⟨.uint32_t, "timeout_ms"⟩]⟩,
    ⟨.uint32_t, "default_timeout", []⟩,
    ⟨.void_, "set_timeout", [⟨.uint32_t, "timeout_ms"⟩]⟩,
    ⟨.int32_t, "timeout", []⟩,
    ⟨.void_, "load_range", [p_addr, p_table, p_range, ⟨.char_cptr, "transfer_log"⟩,
      ⟨.RangeState_cref, "range_state"⟩, p_handler]⟩,
    ⟨.void_, "load_range", [p_addr, p_table, p_range, ⟨.char_cptr, "transfer_log"⟩,
      ⟨.RangeState_cref, "range_state"⟩]⟩,
    ⟨.void_, "update", [p_addr, p_table, ⟨.uint32_t, "count"⟩, p_buffer,
      ⟨.uint32_t, "flags"⟩, p_handler]⟩,
    ⟨.void_, "update", [p_addr, p_table, ⟨.uint32_t, "count"⟩, p_buffer,
      ⟨.uint32_t, "flags"⟩]⟩,
    ⟨.void_, "create_scanner", [p_addr, p_table, p_range, ⟨.ScanSpec_cref, "scan_spec"⟩,
      p_handler]⟩,
    ⟨.void_, "create_scanner", [p_addr, p_table, p_range, ⟨.ScanSpec_cref, "scan_spec"⟩,
      p_scan_block]⟩,
    ⟨.void_, "destroy_scanner", [p_addr, p_scanner_id, p_handler]⟩,
    ⟨.void_, "destroy_scanner", [p_addr, p_scanner_id]⟩,
    ⟨.void_, "fetch_scanblock", [p_addr, p_scanner_id, p_handler]⟩,
    ⟨.void_, "fetch_scanblock", [p_addr, p_scanner_id, p_scan_block]⟩,
    ⟨.void_, "drop_table", [p_addr, p_table, p_handler]⟩,
    ⟨.void_, "drop_table", [p_addr, p_table]⟩,
    ⟨.void_, "update_schema", [p_addr, p_table, ⟨.char_cptr, "schema"⟩, p_handler]⟩,
    ⟨.void_, "commit_log_sync", [p_addr, p_handler]⟩,
    ⟨.void_, "status", [p_addr]⟩,
    ⟨.void_, "close", [p_addr]⟩,
    ⟨.void_, "shutdown", [p_addr]⟩,
    ⟨.void_, "dump", [p_addr, ⟨.String_ref, "outfile"⟩, ⟨.bool_, "nokeys"⟩]⟩,
    ⟨.void_, "get_statistics", [p_addr, ⟨.RangeServerStat_ref, "stat"⟩]⟩,
    ⟨.void_, "replay_begin", [p_addr, ⟨.uint16_t, "group"⟩, p_handler]⟩,
    ⟨.void_, "replay_load_range", [p_addr, p_table, p_range, ⟨.RangeState_cref, "state"⟩,
      p_handler]⟩,
    ⟨.void_, "replay_update", [p_addr, p_buffer, p_handler]⟩,
    ⟨.void_, "replay_commit", [p_addr, p_handler]⟩,
    ⟨.void_, "drop_range", [p_addr, p_table, p_range, p_handler]⟩ ]

/-- A request operation is a public member function addressed to a RangeServer:
its first parameter is the `CommAddress` of the server. -/
def is_operation (d : MemberFunction) : Bool :=
  match d.params with
  | p :: _ => decide (p.ty = CType.CommAddress_cref)
  | [] => false

/-- The declarations of the request operations, in the order of the header. -/
def operations : List MemberFunction := public_member_functions.filter is_operation

/-- The distinct names of the request operations, in the order of the header. -/
def operation_names : List String := (operations.map (fun d => d.name)).eraseDups

/-- The declarations of the operation called `n`. -/
def overloads (n : String) : List MemberFunction :=
  operations.filter (fun d => decide (d.name = n))

/-- An async form: the last parameter is a `DispatchHandler *`. -/
def is_async_form (d : MemberFunction) : Bool :=
  decide (d.params.getLast? = some p_handler)

/-- A sync form: no parameter is a `DispatchHandler *`. -/
def is_sync_form (d : MemberFunction) : Bool :=
  d.params.all (fun p => decide (p.ty ≠ CType.DispatchHandler_ptr))

/-- The operation called `n` is declared in an async form. -/
def has_async_form (n : String) : Bool := (overloads n).any is_async_form

/-- The operation called `n` is declared in a sync form. -/
def has_sync_form (n : String) : Bool := (overloads n).any is_sync_form

/-! ## Operation codes -/

/-- Modelled from the spec: the operation codes of the wire protocol. Their
enumeration is declared in `RangeServerProtocol.h`, which the header includes
and which is not part of the sources at hand; the codes are the ones the
specification enumerates in its section on external interfaces, in that order. -/
inductive OperationCode where
  | LOAD_RANGE
  | UPDATE
  | CREATE_SCANNER
  | DESTROY_SCANNER
  | FETCH_SCANBLOCK
  | DROP_TABLE
  | UPDATE_SCHEMA
  | COMMIT_LOG_SYNC
  | STATUS
  | CLOSE
  | SHUTDOWN
  | DUMP
  | GET_STATISTICS
  | REPLAY_BEGIN
  | REPLAY_LOAD_RANGE
  | REPLAY_UPDATE
  | REPLAY_COMMIT
  | DROP_RANGE
  deriving DecidableEq, Repr, Fintype

/-- Modelled from the spec: the identifier of an operation code, as the
specification spells it. -/
def OperationCode.identifier : OperationCode → String
  | .LOAD_RANGE => "LOAD_RANGE"
  | .UPDATE => "UPDATE"
  | .CREATE_SCANNER => "CREATE_SCANNER"
  | .DESTROY_SCANNER => "DESTROY_SCANNER"
  | .FETCH_SCANBLOCK => "FETCH_SCANBLOCK"
  | .DROP_TABLE => "DROP_TABLE"
  | .UPDATE_SCHEMA => "UPDATE_SCHEMA"
  | .COMMIT_LOG_SYNC => "COMMIT_LOG_SYNC"
  | .STATUS => "STATUS"
  | .CLOSE => "CLOSE"
  | .SHUTDOWN => "SHUTDOWN"
  | .DUMP => "DUMP"
  | .GET_STATISTICS => "GET_STATISTICS"
  | .REPLAY_BEGIN => "REPLAY_BEGIN"
  | .REPLAY_LOAD_RANGE => "REPLAY_LOAD_RANGE"
  | .REPLAY_UPDATE => "REPLAY_UPDATE"
  | .REPLAY_COMMIT => "REPLAY_COMMIT"
  | .DROP_RANGE => "DROP_RANGE"

/-- Lower-casing of an identifier, character by character. -/
def lower_cased (s : String) : String := String.mk (s.data.map Char.toLower)

/-- The method name an operation code stands for: its identifier, lower-cased. -/
def OperationCode.method_name (c : OperationCode) : String := lower_cased c.identifier

/-- All operation codes, in the order of the enumeration. -/
def OperationCode.all : List OperationCode :=
  [.LOAD_RANGE, .UPDATE, .CREATE_SCANNER, .DESTROY_SCANNER, .FETCH_SCANBLOCK, .DROP_TABLE,
   .UPDATE_SCHEMA, .COMMIT_LOG_SYNC, .STATUS, .CLOSE, .SHUTDOWN, .DUMP, .GET_STATISTICS,
   .REPLAY_BEGIN, .REPLAY_LOAD_RANGE, .REPLAY_UPDATE, .REPLAY_COMMIT, .DROP_RANGE]

/-- The operation called `n` has one declaration in the whole public interface:
`void n(const CommAddress &addr)`, and so no declaration with a handler. -/
def declared_once_with_address_only (n : String) : Prop :=
  public_member_functions.filter (fun d => decide (d.name = n))
      = [⟨CType.void_, n, [⟨CType.CommAddress_cref, "addr"⟩]⟩] ∧
  has_async_form n = false ∧
  (∀ d ∈ public_member_functions, d.name = n →
    ∀ p ∈ d.params, p.ty ≠ CType.DispatchHandler_ptr)

/-- A value below `2^32` is its own `uint32_t`. -/
theorem to_uint32_of_lt {t : Nat} (h : t < 2 ^ 32) : to_uint32 t = t := by
  unfold to_uint32 UINT32_SIZE
  exact Nat.mod_eq_of_lt h

/-- Converting to `uint32_t` twice is converting once. -/
theorem to_uint32_idem (t : Nat) : to_uint32 (to_uint32 t) = to_uint32 t := by
  unfold to_uint32 UINT32_SIZE
  exact Nat.mod_mod _ _

/-- Below `2^31` the request timeout is read back unchanged. -/
theorem timeout_set_timeout_small (c : RangeServerClient) (t : Nat) (h : t < 2 ^ 31) :
    (c.set_timeout t).timeout = (t : Int) := by
  have h32 : t < 2 ^ 32 := by omega
  have hm : t % 2 ^ 32 = t := Nat.mod_eq_of_lt h32
  simp only [RangeServerClient.timeout, RangeServerClient.set_timeout, to_int32, to_uint32,
    UINT32_SIZE, Nat.mod_mod, hm]
  rw [if_pos h]

/-- From `2^31` on the request timeout is read back `2^32` too low. -/
theorem timeout_set_timeout_large (c : RangeServerClient) (t : Nat) (h1 : 2 ^ 31 ≤ t)
    (h2 : t < 2 ^ 32) : (c.set_timeout t).timeout = (t : Int) - 4294967296 := by
  have hm : t % 2 ^ 32 = t := Nat.mod_eq_of_lt h2
  simp only [RangeServerClient.timeout, RangeServerClient.set_timeout, to_int32, to_uint32,
    UINT32_SIZE, Nat.mod_mod, hm]
  rw [if_neg (by omega)]
  norm_num

/-- C1 (evaluation at the failing input): after `set_timeout(2147483648)` the
getter `timeout()` returns `-2147483648`, not the value that was set, whereas
`default_timeout()` after `set_default_timeout(2147483648)` returns `2147483648`. -/
theorem C1_timeout_readback_at_two_pow_31 :
    ((RangeServerClient.mk 0 0 0).set_timeout 2147483648).timeout = -2147483648 ∧
    ((RangeServerClient.mk 0 0 0).set_timeout 2147483648).timeout ≠ 2147483648 ∧
    ((RangeServerClient.mk 0 0 0).set_default_timeout 2147483648).default_timeout
      = 2147483648 := by
  refine ⟨?_, ?_, ?_⟩
  · decide
  · decide
  · decide

/-- C2: for every 32-bit unsigned value and every client state, `default_timeout()`
after `set_default_timeout(t)` is `t`, and of two `set_default_timeout` calls in
a row the second one is the one read back. -/
theorem C2_default_timeout_readback (c : RangeServerClient) (a b : Nat)
    (ha : a < 2 ^ 32) (hb : b < 2 ^ 32) :
    (c.set_default_timeout a).default_timeout = a ∧
    ((c.set_default_timeout a).set_default_timeout b).default_timeout = b ∧
    (c.set_default_timeout a).set_default_timeout b = c.set_default_timeout b := by
  simp [RangeServerClient.set_default_timeout, RangeServerClient.default_timeout,
    to_uint32_idem, to_uint32_of_lt ha, to_uint32_of_lt hb]

/-- Instance of C2 at a client with default 30000, for the values 4294967295 and 5000. -/
theorem C2_default_timeout_readback_witness :
    ((RangeServerClient.mk 7 30000 12).set_default_timeout 4294967295).default_timeout
        = 4294967295 ∧
    (((RangeServerClient.mk 7 30000 12).set_default_timeout 4294967295).set_default_timeout
        5000).default_timeout = 5000 ∧
    ((RangeServerClient.mk 7 30000 12).set_default_timeout 4294967295).set_default_timeout 5000
        = (RangeServerClient.mk 7 30000 12).set_default_timeout 5000 :=
  C2_default_timeout_readback (RangeServerClient.mk 7 30000 12) 4294967295 5000
    (by decide) (by decide)

/-- C9: the two timeouts are independent members: `set_timeout` leaves
`default_timeout()` and `m_comm` as they were, `set_default_timeout` leaves
`timeout()` and `m_comm` as they were, and the two setters commute. -/
theorem C9_timeouts_independent (c : RangeServerClient) (t d : Nat) :
    (c.set_timeout t).default_timeout = c.default_timeout ∧
    (c.set_timeout t).m_comm = c.m_comm ∧
    (c.set_default_timeout d).timeout = c.timeout ∧
    (c.set_default_timeout d).m_comm = c.m_comm ∧
    (c.set_timeout t).set_default_timeout d = (c.set_default_timeout d).set_timeout t := by
  refine ⟨rfl, rfl, rfl, rfl, rfl⟩

/-! ### The declared interface -/

/-- The request operations of the header have 18 distinct names. -/
theorem operation_names_eq : operation_names =
    ["load_range", "update", "create_scanner", "destroy_scanner", "fetch_scanblock",
     "drop_table", "update_schema", "commit_log_sync", "status", "close", "shutdown", "dump",
     "get_statistics", "replay_begin", "replay_load_range", "replay_update", "replay_commit",
     "drop_range"] := by
  decide

/-- C3 (as stated, refuted): `status` is a declared operation with no async
form, and `update_schema` is a declared operation with no sync form, so it is
not the case that every declared operation has both forms. -/
theorem C3_not_every_operation_has_both_forms :
    "status" ∈ operation_names ∧ has_async_form "status" = false ∧
    "update_schema" ∈ operation_names ∧ has_sync_form "update_schema" = false ∧
    ¬ (∀ n ∈ operation_names, has_async_form n = true ∧ has_sync_form n = true) := by
  decide

/-- C3 (amended): every declared operation has an async form or a sync form;
both forms exist exactly for `load_range`, `update`, `create_scanner`,
`destroy_scanner`, `fetch_scanblock` and `drop_table`; only the async form
exists for `update_schema`, `commit_log_sync`, the four replay operations and
`drop_range`; only the sync form exists for `status`, `close`, `shutdown`,
`dump` and `get_statistics`. -/
theorem C3_forms_of_each_operation :
    (∀ n ∈ operation_names, has_async_form n = true ∨ has_sync_form n = true) ∧
    operation_names.filter (fun n => has_async_form n && has_sync_form n) =
      ["load_range", "update", "create_scanner", "destroy_scanner", "fetch_scanblock",
       "drop_table"] ∧
    operation_names.filter (fun n => has_async_form n && !has_sync_form n) =
      ["update_schema", "commit_log_sync", "replay_begin", "replay_load_range",
       "replay_update", "replay_commit", "drop_range"] ∧
    operation_names.filter (fun n => !has_async_form n && has_sync_form n) =
      ["status", "close", "shutdown", "dump", "get_statistics"] := by
  decide

/-- C4: `status`, `close` and `shutdown` are each declared exactly once in the
public interface, with the server address as only parameter, and none of
them has a declaration that accepts a completion handler. -/
theorem C4_status_close_shutdown_sync_only :
    declared_once_with_address_only "status" ∧
    declared_once_with_address_only "close" ∧
    declared_once_with_address_only "shutdown" := by
  unfold declared_once_with_address_only
  decide

/-- C5: the map from operation code to lower-cased method name is a bijection
between the 18 operation codes and the distinct names of the request
operations of the public interface: it is injective, every code names a
declared operation, and every declared operation is named by a code; in the
order of the enumeration the codes give the names in the order of the header. -/
theorem C5_operation_codes_biject_operation_names :
    (∀ a b : OperationCode, a.method_name = b.method_name → a = b) ∧
    (∀ c : OperationCode, c.method_name ∈ operation_names) ∧
    (∀ n ∈ operation_names, ∃ c : OperationCode, c.method_name = n) ∧
    OperationCode.all.map OperationCode.method_name = operation_names ∧
    OperationCode.all.length = 18 ∧ operation_names.length = 18 := by
  decide

/-! ### Timeout resolution -/

/-- No request operation is declared with a timeout parameter: the 32-bit
parameters of the operations are the `count` and `flags` of `update`. -/
theorem no_operation_takes_a_timeout :
    (operations.map (fun d => d.params.filter (fun q => decide (q.ty = CType.uint32_t)))).eraseDups
      = [[], [⟨CType.uint32_t, "count"⟩, ⟨CType.uint32_t, "flags"⟩]] ∧
    operations.all (fun d => d.params.all (fun q => decide (q.name ≠ "timeout_ms"))) = true := by
  decide

end Hypertable
